import Mathlib

/-!
Shallow embedding of the `adam` genetic-dashboard server (TypeScript) and
proofs about its marker-analysis pipeline.

Source files embedded here:
- `src/server/local-llm.ts`     (Ollama HTTP client wrapper)
- `src/server/genetic-ai.ts`    (per-marker LLM analysis and risk assessments)
- `src/server/progress-sse.ts`  (SSE progress channel)
- `src/server/routes.ts`        (file parsing, batch pipeline, risk lookup)

Modelling conventions:
- I/O outcomes (fetch results, LLM responses, regex matches on free text) are
  abstracted into small inductive outcome types; everything downstream of an
  outcome is translated directly from the source control flow.
- JavaScript string falsiness (`undefined`/empty string) is modelled with
  `Option String` plus explicit emptiness tests; numeric falsiness with
  rational zero tests.
- Machine floats in the source only ever hold small decimal literals that are
  compared and clamped, never accumulated, so they are modelled as `ℚ`.
-/

/-- JS truthiness of a string: falsy exactly when empty. -/
def jsTruthy (s : String) : Bool := s != ""

/-- JS `s.split(sep)` for a one-character separator (the only separators the
source uses are newline and comma): every maximal separator-free segment,
including empty segments between, before and after separators; `[s]` when no
separator occurs. -/
def jsSplit (s : String) (sep : Char) : List String :=
  (s.toList.splitOn sep).map String.mk

/-- JS `s.trim()`: strip leading and trailing whitespace (the exotic Unicode
space classes JS also strips do not occur in this domain). -/
def jsTrim (s : String) : String :=
  String.mk (((s.toList.dropWhile Char.isWhitespace).reverse.dropWhile
    Char.isWhitespace).reverse)

/-- JS `x || d` for an optional string field of a parsed JSON object:
`undefined` and the empty string both fall back to the default. -/
def jsOrStr : Option String → String → String
  | none, d => d
  | some s, d => if s = "" then d else s

/-- A JS number as the riskScore arithmetic produces it: a rational, or
NaN (the numeric coercion of a truthy non-numeric value). -/
inductive JsNum
  | num (q : ℚ)
  | nan
deriving DecidableEq

/-- The riskScore field of the parsed JSON as `analysis.riskScore || 3`
and the following `Math.max`/`Math.min` chain see it: a falsy JSON value
(null, false, 0 or the empty string - the `||` replaces it by the
default), a truthy value whose JS numeric coercion is the rational `q`
(numbers, numeric strings, singleton numeric arrays, ...), or a truthy
value whose coercion is NaN (non-numeric strings, objects, ...). -/
inductive JsonRiskScore
  | falsy
  | truthyNum (q : ℚ)
  | truthyNaN
deriving DecidableEq

/-- JS `analysis.riskScore || d`: absent and falsy values give the
default; a truthy value enters the arithmetic as its numeric coercion. -/
def riskScoreOrDefault : Option JsonRiskScore → ℚ → JsNum
  | none, d => .num d
  | some .falsy, d => .num d
  | some (.truthyNum q), _ => .num q
  | some .truthyNaN, _ => .nan

/-- JS `Math.max(a, x)`: NaN-absorbing maximum. -/
def jsMax (a : ℚ) : JsNum → JsNum
  | .num q => .num (max a q)
  | .nan => .nan

/-- JS `Math.min(a, x)`: NaN-absorbing minimum. -/
def jsMin (a : ℚ) : JsNum → JsNum
  | .num q => .num (min a q)
  | .nan => .nan

/-- Whether a riskScore is a rational in the closed interval [1, 5]
(NaN is not). -/
def riskScoreInRange : JsNum → Bool
  | .num q => decide (1 ≤ q) && decide (q ≤ 5)
  | .nan => false

/-! ### src/server/local-llm.ts -/

/-- Outcome of `fetch(baseUrl + "/api/tags")` together with what the JSON body
held. `fetchFail` covers a thrown network error; `okBadJson` an ok response
whose `response.json()` throws; `okNoModels` a JSON body with no `models`
array; `okModels` a body with a `models` array of the given names. -/
inductive TagsFetch
  | fetchFail
  | notOk
  | okBadJson
  | okNoModels
  | okModels (names : List String)
deriving DecidableEq

/-- Embeds `LocalLLM.checkHealth`: returns `response.ok`; the catch block returns
`false`. `checkHealth` never reads the body, so the JSON cases all report
the ok status. -/
def LocalLLM.checkHealth : TagsFetch → Bool
  | .fetchFail => false
  | .notOk => false
  | .okBadJson => true
  | .okNoModels => true
  | .okModels _ => true

/-- Embeds `LocalLLM.listModels`: `[]` when the response is not ok, when `json()`
throws (caught), or when `data.models?.map(...)` is `undefined`
(`|| []`); otherwise the model names. -/
def LocalLLM.listModels : TagsFetch → List String
  | .fetchFail => []
  | .notOk => []
  | .okBadJson => []
  | .okNoModels => []
  | .okModels names => names

/-! ### src/server/genetic-ai.ts -/

/-- Embeds `GeneticAnalysisRequest` (also the element shape of
`GeneticFileData.markers` in `routes.ts`). `position` keeps the raw CSV field;
the `parseInt` coercion at the call site is not modelled since no claim
inspects the numeric value. -/
structure GeneticAnalysisRequest where
  gene : String
  variant : String
  genotype : String
  chromosome : Option String := none
  position : Option String := none
deriving DecidableEq

/-- Embeds `GeneticAnalysisResult`. -/
structure GeneticAnalysisResult where
  gene : String
  variant : String
  genotype : String
  impact : String
  clinicalSignificance : String
  riskScore : JsNum
  healthCategory : String
  subcategory : String
  explanation : String
  recommendations : List String
deriving DecidableEq

/-- The object `JSON.parse` produced from the cleaned brace-delimited
substring of the model response in `analyzeGeneticMarker`. A `none` field is
one that is absent from the parsed JSON; `riskScore` classifies a present
field by what the `||`-default and the numeric coercion see (including
truthy non-numeric values, which coerce to NaN); `recommendations` is
`some` exactly when `Array.isArray(analysis.recommendations)` holds. -/
structure ParsedAnalysis where
  impact : Option String := none
  clinicalSignificance : Option String := none
  riskScore : Option JsonRiskScore := none
  healthCategory : Option String := none
  subcategory : Option String := none
  explanation : Option String := none
  recommendations : Option (List String) := none
deriving DecidableEq

/-- Environment outcome for one `analyzeGeneticMarker` call:
`unhealthy` - `localLLM.checkHealth()` resolved `false`;
`healthyNoJson` - health check ok but the response had no brace-delimited
substring (`response.match` returned `null`);
`healthyParseFail` - a substring matched but `JSON.parse` threw;
`healthyParsed` - `JSON.parse` succeeded on the cleaned substring;
`threw` - `generateResponse` itself threw (timeout, HTTP error, ...). -/
inductive LLMBehavior
  | unhealthy
  | healthyNoJson
  | healthyParseFail
  | healthyParsed (a : ParsedAnalysis)
  | threw
deriving DecidableEq

/-- The fixed record returned when the local model is not available
(fall-through after the `if (isLocalLLMAvailable)` block). -/
def pendingLocalAnalysis (marker : GeneticAnalysisRequest) : GeneticAnalysisResult :=
  { gene := marker.gene
    variant := marker.variant
    genotype := marker.genotype
    impact := "Pending Local Analysis"
    clinicalSignificance := "Local Model Required"
    riskScore := .num 0
    healthCategory := "System Status"
    subcategory := "Model Configuration"
    explanation := "Local genetic analysis model not connected. To analyze "
      ++ marker.gene ++ " " ++ marker.variant ++ " (" ++ marker.genotype
      ++ "), please start your local LLM server."
    recommendations :=
      ["Install Ollama on your local machine",
       "Pull a biomedical model: ollama pull llama3.1:8b",
       "Start the local server: ollama serve",
       "Upload your genetic data again for analysis"] }

/-- The fixed record returned by the catch block of `analyzeGeneticMarker`. -/
def analysisErrorResult (marker : GeneticAnalysisRequest) : GeneticAnalysisResult :=
  { gene := marker.gene
    variant := marker.variant
    genotype := marker.genotype
    impact := "Analysis Error"
    clinicalSignificance := "Connection Failed"
    riskScore := .num 0
    healthCategory := "System Status"
    subcategory := "Model Connection"
    explanation := "Unable to analyze " ++ marker.gene ++ " " ++ marker.variant
      ++ ". Local model connection failed."
    recommendations :=
      ["Check local model server status",
       "Verify Ollama is running on localhost:11434",
       "Restart the local model server if needed"] }

/-- Embeds `analyzeGeneticMarker`, branching on the abstracted environment outcome.
Every JS throw source (the LLM calls and `JSON.parse`) sits inside the `try`
whose catch returns `analysisErrorResult`, so the function is total. -/
def analyzeGeneticMarker (marker : GeneticAnalysisRequest) :
    LLMBehavior → GeneticAnalysisResult
  | .healthyParsed a =>
      { gene := marker.gene
        variant := marker.variant
        genotype := marker.genotype
        impact := jsOrStr a.impact "Unknown"
        clinicalSignificance := jsOrStr a.clinicalSignificance "VUS"
        riskScore := jsMin 5 (jsMax 1 (riskScoreOrDefault a.riskScore 3))
        healthCategory := jsOrStr a.healthCategory "General Health"
        subcategory := jsOrStr a.subcategory "Genetic Variant"
        explanation := jsOrStr a.explanation "Analysis pending"
        recommendations := a.recommendations.getD [] }
  | .unhealthy => pendingLocalAnalysis marker
  | .healthyNoJson => pendingLocalAnalysis marker
  | .healthyParseFail => analysisErrorResult marker
  | .threw => analysisErrorResult marker

/-- Element shape of the array returned by `generateRiskAssessments`. -/
structure RiskAssessment where
  category : String
  subcategory : String
  riskLevel : ℚ
  description : String
  recommendation : String
deriving DecidableEq

/-- Environment outcome for one `generateRiskAssessments` call:
`threw` - `generateResponse` threw;
`noArrayMatch` - no bracket-delimited substring in the response;
`parsedArray` - `JSON.parse` on the repaired substring yielded an array;
`parsedNonArray` - it yielded a non-array value;
`parseFail` - it threw, with the listed `"category"` regex matches and the
parsed `"riskLevel"` regex matches available for manual extraction. -/
inductive RAOutcome
  | threw
  | noArrayMatch
  | parsedArray (l : List RiskAssessment)
  | parsedNonArray
  | parseFail (categories : List String) (riskLevels : List ℚ)
deriving DecidableEq

/-- One manually extracted assessment in the parse-failure fallback of
`generateRiskAssessments`. -/
def manualAssessment (category : String) (riskLevel : ℚ) : RiskAssessment :=
  { category := category
    subcategory := "Risk Assessment"
    riskLevel := riskLevel
    description := "Risk assessment for " ++ category
    recommendation := "Consult with healthcare provider for detailed guidance." }

/-- The final fallback assessment inside the parse-failure catch block. -/
def parseFailFallback : RiskAssessment :=
  { category := "General Health"
    subcategory := "Overall Risk"
    riskLevel := (2.5 : ℚ)
    description := "Risk assessment could not be completed. Please try again."
    recommendation := "Contact support if this issue persists." }

/-- The fallback assessment returned when no bracket-delimited substring
matches in the response. -/
def noMatchFallback : RiskAssessment :=
  { category := "General Health"
    subcategory := "Overall Risk"
    riskLevel := (2.5 : ℚ)
    description := "Risk assessment could not be completed."
    recommendation := "Please try again." }

/-- Embeds `generateRiskAssessments`, branching on the abstracted outcome. The
markers argument only feeds the prompt text, so it does not influence the
result shape. In the parse-failure branch the source maps over
`categoryMatches.slice(0, 4)` when more than one category matched, with
`riskMatches?.[index] ... || 2.5` as the risk level; otherwise it falls to
the final fallback. The whole body is wrapped in try/catch returning `[]`,
so the function is total. -/
def generateRiskAssessments (_markers : List GeneticAnalysisResult) :
    RAOutcome → List RiskAssessment
  | .threw => []
  | .parsedArray l => l
  | .parsedNonArray => []
  | .noArrayMatch => [noMatchFallback]
  | .parseFail categories riskLevels =>
      if 1 < categories.length then
        (categories.take 4).mapIdx
          (fun i c => manualAssessment c (riskLevels.getD i (2.5 : ℚ)))
      else
        [parseFailFallback]

/-! ### src/server/progress-sse.ts -/

/-- Structured payload of one SSE `data:` message, as passed to
`sendProgressUpdate` (the JSON framing is elided). -/
inductive ProgressData
  | connected
  | analysisStarted (total : Nat)
  | markerProgress (current total : Nat) (gene variant : String)
  | markerComplete (current total : Nat) (gene variant impact : String)
  | analysisComplete (totalMarkers : Nat)
deriving DecidableEq

/-- State of one Express/Node `Response` object used as an SSE connection:
whether the response header has been committed and which payloads have been
written to the body. -/
structure SSEConn where
  headersSent : Bool
  written : List ProgressData
deriving DecidableEq

/-- Node `http` semantics of `response.writeHead`: it renders and commits the
response header, after which `response.headersSent` is `true` (calling
`writeHead` again would throw `ERR_HTTP_HEADERS_SENT`). -/
def SSEConn.writeHead (c : SSEConn) : SSEConn := { c with headersSent := true }

/-- Node `http` semantics of `response.write`: appends to the body, flushing
(hence committing) the header if it was not yet sent. -/
def SSEConn.write (c : SSEConn) (data : ProgressData) : SSEConn :=
  { headersSent := true, written := c.written ++ [data] }

/-- The module-level `progressConnections` map, keyed by progress id. -/
def ProgressConnections : Type := List (String × SSEConn)

/-- Embeds `progressConnections.get(analysisId)`. -/
def getConn (conns : ProgressConnections) (analysisId : String) : Option SSEConn :=
  (List.find? (fun p => p.1 == analysisId) conns).map (fun p => p.2)

/-- Embeds `progressConnections.set(analysisId, res)`. -/
def setConn (conns : ProgressConnections) (analysisId : String) (c : SSEConn) :
    ProgressConnections :=
  (analysisId, c) :: List.filter (fun p => !(p.1 == analysisId)) conns

/-- The `GET /api/progress/:analysisId` handler registered by
`setupProgressSSE`: `writeHead(200, ...)`, store the response in the map,
then write the initial `connected` message. JS stores the object by
reference, so the stored entry reflects the subsequent write too. -/
def setupProgressSSEHandler (conns : ProgressConnections) (analysisId : String)
    (res : SSEConn) : ProgressConnections :=
  let res1 := res.writeHead
  let res2 := res1.write .connected
  setConn conns analysisId res2

/-- Embeds `sendProgressUpdate`: looks the connection up and writes only when
`connection && !connection.headersSent`; otherwise it logs and returns. The
write itself is modelled as succeeding (its catch merely deletes the entry). -/
def sendProgressUpdate (conns : ProgressConnections) (analysisId : String)
    (data : ProgressData) : ProgressConnections :=
  match getConn conns analysisId with
  | some c => if !c.headersSent then setConn conns analysisId (c.write data) else conns
  | none => conns

/-- Embeds `cleanupProgressConnection`: ends and removes the connection. -/
def cleanupProgressConnection (conns : ProgressConnections) (analysisId : String) :
    ProgressConnections :=
  List.filter (fun p => !(p.1 == analysisId)) conns

/-! ### src/server/routes.ts - parseGeneticFile -/

/-- Value a CSV row assigns to header `name` after
`headers.forEach((header, index) => marker[header] = values[index])`:
the value at the last index whose header equals `name` (later assignments to
a duplicate key overwrite earlier ones), `none` when the header is absent.
The forEach ranges over `headers`, so `zip` truncation to the header count
matches the source (the row guard guarantees `values` is at least as long). -/
def fieldValue (headers values : List String) (name : String) : Option String :=
  (List.find? (fun p => p.1 == name) (headers.zip values).reverse).map (fun p => p.2)

/-- The marker built from one CSV data row, `none` when the `gene`, `variant`
or `genotype` field is missing or empty (JS truthiness check
`marker.gene && marker.variant && marker.genotype`). `chromosome` applies the
source `|| undefined`; `position` keeps the raw field that the source
passes to `parseInt` (no claim inspects the numeric value). -/
def rowMarker (headers values : List String) : Option GeneticAnalysisRequest :=
  let g := (fieldValue headers values "gene").getD ""
  let v := (fieldValue headers values "variant").getD ""
  let t := (fieldValue headers values "genotype").getD ""
  if jsTruthy g && jsTruthy v && jsTruthy t then
    some { gene := g, variant := v, genotype := t
           chromosome :=
             match fieldValue headers values "chromosome" with
             | some s => if s = "" then none else some s
             | none => none
           position :=
             match fieldValue headers values "position" with
             | some s => if s = "" then none else some s
             | none => none }
  else none

/-- The `for (let i = 1; ...)` loop of `parseGeneticFile`, pushing a marker
for every data row whose value count reaches the header count and whose
`gene`, `variant` and `genotype` fields are non-empty. -/
def parseRows (headers : List String) : List String → List GeneticAnalysisRequest
  | [] => []
  | line :: rest =>
    let values := (jsSplit line ',').map jsTrim
    if headers.length ≤ values.length then
      match rowMarker headers values with
      | some m => m :: parseRows headers rest
      | none => parseRows headers rest
    else parseRows headers rest

/-- Embeds `parseGeneticFile` from `routes.ts` (the CSV parser used by the upload
route): split on newlines, drop blank lines, require a header plus one data
row, parse rows, and throw when no valid marker was found. Throws are
modelled as `Except.error` with the thrown message. -/
def parseGeneticFile (content : String) : Except String (List GeneticAnalysisRequest) :=
  let lines := List.filter (fun l => jsTrim l != "") (jsSplit content '\n')
  if lines.length < 2 then
    Except.error "File must contain at least a header and one data row"
  else
    let headers := (jsSplit (lines.headD "") ',').map jsTrim
    let markers := parseRows headers (lines.drop 1)
    if markers.length = 0 then
      Except.error "No valid genetic markers found in file"
    else
      Except.ok markers

/-- Specification-side reading of the parser result: the markers of exactly
those data rows whose value count is at least the header count and whose
`gene`, `variant` and `genotype` fields are all non-empty, in input order. -/
def specValidMarkers (content : String) : List GeneticAnalysisRequest :=
  let lines := List.filter (fun l => jsTrim l != "") (jsSplit content '\n')
  let headers := (jsSplit (lines.headD "") ',').map jsTrim
  (lines.drop 1).filterMap (fun line =>
    let values := (jsSplit line ',').map jsTrim
    if headers.length ≤ values.length then rowMarker headers values else none)

/-! ### src/server/routes.ts - analyzeGeneticRisk -/

/-- One leaf of the `riskVariants` nested object literal in
`analyzeGeneticRisk`, keyed by gene, variant and genotype. -/
structure RiskVariantEntry where
  gene : String
  variant : String
  genotype : String
  impact : String
  score : ℚ
  significance : String
  category : String
  subcategory : String
deriving DecidableEq

/-- Return shape of `analyzeGeneticRisk`. Although the TS annotation
declares plain strings and a number, the implementation can return a
record of `undefined` fields (when the lookup passes the guard through
inherited prototype properties), so each field is an `Option`. -/
structure RiskResult where
  impact : Option String
  riskScore : Option ℚ
  clinicalSignificance : Option String
  category : Option String
  subcategory : Option String
deriving DecidableEq

/-- The `riskVariants` table of `analyzeGeneticRisk`, flattened from the
nested `gene -> variant -> genotype` object literal. All keys are distinct,
so an association-list lookup is equivalent to the JS nested record access. -/
def riskVariants : List RiskVariantEntry :=
  [⟨"ACE", "rs4341", "GG", "Low", 0.2, "Optimal endurance performance", "Physical Activity & Sport", "Endurance (Aerobic Predisposition)"⟩,
   ⟨"ACE", "rs4341", "AG", "Moderate", 0.4, "Average endurance performance", "Physical Activity & Sport", "Endurance (Aerobic Predisposition)"⟩,
   ⟨"ACE", "rs4341", "AA", "High", 0.7, "Power/strength advantage over endurance", "Physical Activity & Sport", "Power/Strength (Anaerobic Predisposition)"⟩,
   ⟨"ACTN3", "rs1815739", "TT", "Low", 0.2, "Enhanced endurance performance", "Physical Activity & Sport", "Endurance (Aerobic Predisposition)"⟩,
   ⟨"ACTN3", "rs1815739", "CT", "Moderate", 0.4, "Balanced power and endurance", "Physical Activity & Sport", "Exercise Tolerance"⟩,
   ⟨"ACTN3", "rs1815739", "CC", "High", 0.1, "Superior power and strength", "Physical Activity & Sport", "Power/Strength (Anaerobic Predisposition)"⟩,
   ⟨"PPARGC1A", "rs8192678", "GG", "Low", 0.2, "Excellent mitochondrial function", "Physical Activity & Sport", "Energy production during exercise"⟩,
   ⟨"PPARGC1A", "rs8192678", "GT", "Moderate", 0.4, "Average energy production", "Physical Activity & Sport", "Energy production during exercise"⟩,
   ⟨"PPARGC1A", "rs8192678", "TT", "High", 0.7, "Reduced energy efficiency", "Physical Activity & Sport", "Energy production during exercise"⟩,
   ⟨"AGT", "rs699", "AA", "Low", 0.2, "Normal blood pressure regulation", "Cardiovascular Health", "Blood Pressure"⟩,
   ⟨"AGT", "rs699", "AG", "Moderate", 0.4, "Moderate hypertension risk", "Cardiovascular Health", "Blood Pressure"⟩,
   ⟨"AGT", "rs699", "GG", "High", 0.8, "Elevated blood pressure risk", "Cardiovascular Health", "Blood Pressure"⟩,
   ⟨"APOE", "rs429358", "T/T", "Low", 0.1, "Protective against Alzheimer\x27s disease", "Genetic Risk for Specific Conditions", "Alzheimer\x27s Disease"⟩,
   ⟨"APOE", "rs429358", "C/T", "Moderate", 0.4, "Moderate Alzheimer\x27s risk (E3/E4)", "Genetic Risk for Specific Conditions", "Alzheimer\x27s Disease"⟩,
   ⟨"APOE", "rs429358", "C/C", "High", 0.9, "Significantly elevated Alzheimer\x27s risk (E4/E4)", "Genetic Risk for Specific Conditions", "Alzheimer\x27s Disease"⟩,
   ⟨"MTHFR", "rs1801133", "C/C", "Low", 0.1, "Normal folate metabolism", "Cellular Pathways", "Methylation"⟩,
   ⟨"MTHFR", "rs1801133", "C/T", "Moderate", 0.4, "Reduced folate metabolism efficiency", "Cellular Pathways", "Methylation"⟩,
   ⟨"MTHFR", "rs1801133", "T/T", "High", 0.8, "Significantly impaired folate metabolism", "Cellular Pathways", "Methylation"⟩,
   ⟨"MTHFR", "rs1801131", "A/A", "Low", 0.1, "Normal methionine synthesis", "Cellular Pathways", "Methylation"⟩,
   ⟨"MTHFR", "rs1801131", "A/C", "Moderate", 0.3, "Mildly reduced methionine synthesis", "Cellular Pathways", "Methylation"⟩,
   ⟨"MTHFR", "rs1801131", "C/C", "High", 0.7, "Impaired methionine synthesis", "Cellular Pathways", "Methylation"⟩,
   ⟨"VDR", "rs2228570", "CC", "Low", 0.2, "Efficient vitamin D metabolism", "Nutrients & Compounds", "Vitamin D Requirements"⟩,
   ⟨"VDR", "rs2228570", "CT", "Moderate", 0.4, "Moderately reduced vitamin D efficiency", "Nutrients & Compounds", "Vitamin D Requirements"⟩,
   ⟨"VDR", "rs2228570", "TT", "High", 0.8, "Reduced vitamin D receptor function", "Nutrients & Compounds", "Vitamin D Requirements"⟩,
   ⟨"VDR", "rs1544410", "AA", "Low", 0.2, "Optimal vitamin D binding", "Nutrients & Compounds", "Vitamin D Requirements"⟩,
   ⟨"VDR", "rs1544410", "AG", "Moderate", 0.4, "Moderately reduced vitamin D binding", "Nutrients & Compounds", "Vitamin D Requirements"⟩,
   ⟨"VDR", "rs1544410", "GG", "High", 0.7, "Reduced vitamin D binding efficiency", "Nutrients & Compounds", "Vitamin D Requirements"⟩,
   ⟨"HFE", "rs1800562", "GG", "Low", 0.1, "Normal iron metabolism", "Immunity", "Iron Deficiency Risk"⟩,
   ⟨"HFE", "rs1800562", "GA", "Moderate", 0.4, "Carrier for hemochromatosis", "Immunity", "Iron Overload Susceptibility"⟩,
   ⟨"HFE", "rs1800562", "AA", "High", 0.9, "High risk for iron overload", "Immunity", "Iron Overload Susceptibility"⟩,
   ⟨"TNF", "rs1800629", "GG", "Low", 0.2, "Normal inflammatory response", "Cellular Pathways", "Inflammation"⟩,
   ⟨"TNF", "rs1800629", "GA", "Moderate", 0.5, "Moderately elevated inflammation", "Cellular Pathways", "Inflammation"⟩,
   ⟨"TNF", "rs1800629", "AA", "High", 0.8, "High inflammatory response", "Cellular Pathways", "Inflammation"⟩,
   ⟨"IL6", "rs1800795", "GG", "Low", 0.2, "Lower inflammatory response", "Cellular Pathways", "Inflammation"⟩,
   ⟨"IL6", "rs1800795", "GC", "Moderate", 0.4, "Moderate inflammatory response", "Cellular Pathways", "Inflammation"⟩,
   ⟨"IL6", "rs1800795", "CC", "High", 0.8, "Elevated inflammatory response", "Cellular Pathways", "Inflammation"⟩,
   ⟨"GSTM1", "rs1065411", "PRS", "Low", 0.2, "Present - good detoxification", "Cellular Pathways", "Detoxification Phase 2"⟩,
   ⟨"GSTM1", "rs1065411", "DEL", "High", 0.8, "Deleted - impaired detoxification", "Cellular Pathways", "Detoxification Phase 2"⟩,
   ⟨"COL1A1", "rs1800012", "GG", "Low", 0.2, "Strong collagen production", "Healthy Ageing", "Skin Firmness & Elasticity"⟩,
   ⟨"COL1A1", "rs1800012", "GT", "Moderate", 0.4, "Moderately reduced collagen strength", "Healthy Ageing", "Skin Firmness & Elasticity"⟩,
   ⟨"COL1A1", "rs1800012", "TT", "High", 0.8, "Reduced collagen strength", "Healthy Ageing", "Skin Firmness & Elasticity"⟩,
   ⟨"CYP1A2", "rs762551", "AA", "Low", 0.2, "Fast caffeine metabolizer", "Dietary Sensitivities", "Caffeine (Health & Diet)"⟩,
   ⟨"CYP1A2", "rs762551", "AC", "Moderate", 0.4, "Intermediate caffeine metabolism", "Dietary Sensitivities", "Caffeine (Health & Diet)"⟩,
   ⟨"CYP1A2", "rs762551", "CC", "High", 0.8, "Slow caffeine metabolizer", "Dietary Sensitivities", "Caffeine (Health & Diet)"⟩]

/-- The default returned by `analyzeGeneticRisk` for unknown variants. -/
def unknownVariantResult : RiskResult :=
  { impact := some "Unknown"
    riskScore := some 0.5
    clinicalSignificance := some "Variant of uncertain significance"
    category := some "Other"
    subcategory := some "Unknown" }

/-- The record built from a table entry on a successful lookup. -/
def entryResult (e : RiskVariantEntry) : RiskResult :=
  { impact := some e.impact
    riskScore := some e.score
    clinicalSignificance := some e.significance
    category := some e.category
    subcategory := some e.subcategory }

/-- The record returned when the `geneData && geneData[variant] &&
geneData[variant][genotype]` guard passes on a value reached through the
prototype chain: `data` is then a function, string, number or prototype
object, none of which has the five leaf fields, so every field reads as
`undefined`. -/
def protoHitResult : RiskResult :=
  { impact := none
    riskScore := none
    clinicalSignificance := none
    category := none
    subcategory := none }

/-- Property names every plain JS object (the `riskVariants` literal and
its nested sub-objects included) inherits from `Object.prototype`; reading
any of them yields a truthy value (a built-in function, or the prototype
object itself for `__proto__`). -/
def objectProtoProps : List String :=
  ["constructor", "hasOwnProperty", "isPrototypeOf", "propertyIsEnumerable",
   "toLocaleString", "toString", "valueOf", "__proto__",
   "__defineGetter__", "__defineSetter__", "__lookupGetter__", "__lookupSetter__"]

/-- Whether `gene` is an own key of the `riskVariants` literal. -/
def isOwnGene (gene : String) : Bool :=
  riskVariants.any (fun e => e.gene == gene)

/-- Whether `variant` is an own key of the `riskVariants[gene]`
sub-object. -/
def isOwnVariant (gene variant : String) : Bool :=
  riskVariants.any (fun e => e.gene == gene && e.variant == variant)

/-- The leaf entry at `riskVariants[gene][variant][genotype]` when the
whole path goes through own keys. All keys are distinct, so this
association-list lookup is equivalent to the JS nested own-property
access. -/
def findVariantEntry (gene variant genotype : String) : Option RiskVariantEntry :=
  riskVariants.find?
    (fun e => e.gene == gene && e.variant == variant && e.genotype == genotype)

/-- Embeds `analyzeGeneticRisk`, including JS prototype-chain semantics of
the bracket accesses: an own key shadows the chain; a miss on a plain
object falls through to `Object.prototype` (truthy for exactly the names
in `objectProtoProps`, `undefined` otherwise). Once the path has left the
own keys, the value is a built-in function or similar; truthiness of
further reads on such values (`.name` of a function, `.length` of a
string, ...) depends on runtime structure that the table does not
determine, so it is supplied by the `protoTruthy` parameter, indexed by
the keys read - the real runtime fixes one such function. Whenever the
guard passes on a prototype-reached `data`, the five fields read as
`undefined` (`protoHitResult`). -/
def analyzeGeneticRisk (protoTruthy : List String → Bool)
    (gene variant genotype : String) : RiskResult :=
  if isOwnGene gene then
    if isOwnVariant gene variant then
      match findVariantEntry gene variant genotype with
      | some e => entryResult e
      | none =>
        if genotype ∈ objectProtoProps then protoHitResult
        else unknownVariantResult
    else
      if variant ∈ objectProtoProps then
        if protoTruthy [gene, variant, genotype] then protoHitResult
        else unknownVariantResult
      else unknownVariantResult
  else
    if gene ∈ objectProtoProps then
      if protoTruthy [gene, variant] then
        if protoTruthy [gene, variant, genotype] then protoHitResult
        else unknownVariantResult
      else unknownVariantResult
    else unknownVariantResult

/-! ### src/server/routes.ts - the upload batch pipeline

`POST /api/upload-genetic-data` parses the file, slices to `maxMarkers`,
then runs a `for (i += batchSize)` loop: each batch maps its markers to
async closures (progress event, `analyzeGeneticMarker`, store the row,
completion event; on a caught error store a fallback row) and awaits
`Promise.allSettled` before the next batch starts. The per-marker closure is
abstracted by an oracle `llm : GeneticAnalysisRequest → Option
GeneticAnalysisResult`; `none` means the closure threw somewhere between the
LLM call and the row insert, which the catch turns into the fallback row.
Within a batch the settled rows are listed in marker order (a linearisation
of the concurrent inserts; every claim below is order-insensitive within a
batch or concerns the per-marker records themselves). -/

/-- The row stored by `storage.createGeneticMarker`. -/
structure StoredMarker where
  gene : String
  variant : String
  genotype : String
  impact : String
  clinicalSignificance : String
  chromosome : Option String
  position : Option String
  riskScore : Option JsNum
  healthCategory : Option String
  subcategory : Option String
  explanation : String
  recommendations : String
deriving DecidableEq

/-- The row stored on the success path, including the
join of `result.recommendations` with a semicolon separator. -/
def successRecord (m : GeneticAnalysisRequest) (r : GeneticAnalysisResult) :
    StoredMarker :=
  { gene := r.gene
    variant := r.variant
    genotype := r.genotype
    impact := r.impact
    clinicalSignificance := r.clinicalSignificance
    chromosome := m.chromosome
    position := m.position
    riskScore := some r.riskScore
    healthCategory := some r.healthCategory
    subcategory := some r.subcategory
    explanation := r.explanation
    recommendations := String.intercalate "; " r.recommendations }

/-- The fallback row stored by the per-marker catch block. -/
def fallbackRecord (m : GeneticAnalysisRequest) : StoredMarker :=
  { gene := m.gene
    variant := m.variant
    genotype := m.genotype
    impact := "Analysis Pending"
    clinicalSignificance := "Processing"
    chromosome := m.chromosome
    position := m.position
    riskScore := none
    healthCategory := none
    subcategory := none
    explanation := "Analysis will be completed in background"
    recommendations := "Check back later for complete results" }

/-- The row one marker contributes, success or fallback. -/
def storedRecord (llm : GeneticAnalysisRequest → Option GeneticAnalysisResult)
    (m : GeneticAnalysisRequest) : StoredMarker :=
  match llm m with
  | some r => successRecord m r
  | none => fallbackRecord m

/-- Observable trace of (part of) an upload run: the markers passed to
`analyzeGeneticMarker`, the rows handed to `storage.createGeneticMarker`, and
the payloads handed to `sendProgressUpdate`, each in program order. -/
structure UploadTrace where
  llmCalls : List GeneticAnalysisRequest
  stored : List StoredMarker
  events : List ProgressData
deriving DecidableEq

def UploadTrace.empty : UploadTrace := ⟨[], [], []⟩

def UploadTrace.append (t1 t2 : UploadTrace) : UploadTrace :=
  ⟨t1.llmCalls ++ t2.llmCalls, t1.stored ++ t2.stored, t1.events ++ t2.events⟩

/-- One marker of a batch: `marker_progress` event, the
`analyzeGeneticMarker` call, the stored row and (on success, i.e. when the
closure reached it) the `marker_complete` event. `current` is
`globalIndex + 1`. -/
def processMarker (llm : GeneticAnalysisRequest → Option GeneticAnalysisResult)
    (total globalIndex : Nat) (m : GeneticAnalysisRequest) : UploadTrace :=
  match llm m with
  | some r =>
      { llmCalls := [m]
        stored := [successRecord m r]
        events := [.markerProgress (globalIndex + 1) total m.gene m.variant,
                   .markerComplete (globalIndex + 1) total m.gene m.variant r.impact] }
  | none =>
      { llmCalls := [m]
        stored := [fallbackRecord m]
        events := [.markerProgress (globalIndex + 1) total m.gene m.variant] }

/-- One batch: `batch.map(async (marker, batchIndex) => ...)` with
`globalIndex = i + batchIndex`, linearised in marker order. -/
def processBatch (llm : GeneticAnalysisRequest → Option GeneticAnalysisResult)
    (total base : Nat) : List GeneticAnalysisRequest → UploadTrace
  | [] => .empty
  | m :: rest =>
    (processMarker llm total base m).append (processBatch llm total (base + 1) rest)

/-- Embeds `const maxMarkers = 50`. -/
def maxMarkers : Nat := 50

/-- Embeds `const batchSize = 5`. -/
def batchSize : Nat := 5

/-- The `for (let i = 0; i < markersToAnalyze.length; i += batchSize)` loop:
slice `[i, i + batchSize)`, settle the whole batch, then continue at
`i + batchSize`. -/
def batchLoop (llm : GeneticAnalysisRequest → Option GeneticAnalysisResult)
    (total : Nat) (ms : List GeneticAnalysisRequest) (i : Nat) : UploadTrace :=
  if _h : i < ms.length then
    (processBatch llm total i ((ms.drop i).take batchSize)).append
      (batchLoop llm total ms (i + batchSize))
  else
    .empty
termination_by ms.length - i
decreasing_by simp [batchSize]; omega

/-- The marker-analysis phase of the upload route: slice the parsed markers
to `maxMarkers`, emit `analysis_started`, run the batch loop, emit
`analysis_complete` with the settled row count (the risk-assessment phase
that follows is modelled separately by `generateRiskAssessments`). -/
def processUpload (llm : GeneticAnalysisRequest → Option GeneticAnalysisResult)
    (markers : List GeneticAnalysisRequest) : UploadTrace :=
  let markersToAnalyze := markers.take maxMarkers
  let run := batchLoop llm markersToAnalyze.length markersToAnalyze 0
  (UploadTrace.mk [] [] [.analysisStarted markersToAnalyze.length]).append
    (run.append (UploadTrace.mk [] [] [.analysisComplete run.stored.length]))

/-- Chunks of at most `batchSize` consecutive elements, in order: the batch
partition the loop slices out. -/
def chunks5 : List α → List (List α)
  | [] => []
  | x :: rest => ((x :: rest).take batchSize) :: chunks5 ((x :: rest).drop batchSize)
termination_by l => l.length
decreasing_by simp [batchSize]; omega

/-- Sequential processing of a list of batches, each settled fully before
the next starts; `base` is the global index of the first marker. -/
def chunksRun (llm : GeneticAnalysisRequest → Option GeneticAnalysisResult)
    (total : Nat) : Nat → List (List GeneticAnalysisRequest) → UploadTrace
  | _, [] => .empty
  | base, b :: bs =>
    (processBatch llm total base b).append (chunksRun llm total (base + b.length) bs)

/-- A 51-data-row CSV input for the upload route. -/
def csv51 : String :=
  String.intercalate "\n"
    ("gene,variant,genotype" ::
      (List.range 51).map (fun i => "G" ++ toString i ++ ",rs" ++ toString i ++ ",AA"))

/-!
## Theorems
-/

/-- Claim C10: `localLLM.checkHealth` and `localLLM.listModels` never throw
(both are total functions of the fetch outcome, every throw being caught);
`checkHealth` returns `false` whenever the HTTP request fails, and
`listModels` returns `[]` whenever the request fails, the response is not
ok, or the response body lacks a `models` array. -/
theorem localLLM_request_failures :
    LocalLLM.checkHealth .fetchFail = false ∧
    LocalLLM.listModels .fetchFail = [] ∧
    LocalLLM.listModels .notOk = [] ∧
    LocalLLM.listModels .okBadJson = [] ∧
    LocalLLM.listModels .okNoModels = [] :=
  ⟨rfl, rfl, rfl, rfl, rfl⟩

/-- Claim C8: on every return path of `analyzeGeneticMarker` - successful
JSON parse, model-unavailable fallback, and caught-error fallback - the
returned record keeps the gene, variant and genotype of the request; the
function is total (no path throws). -/
theorem analyzeGeneticMarker_identity (m : GeneticAnalysisRequest) (b : LLMBehavior) :
    (analyzeGeneticMarker m b).gene = m.gene ∧
    (analyzeGeneticMarker m b).variant = m.variant ∧
    (analyzeGeneticMarker m b).genotype = m.genotype := by
  cases b <;>
    simp [analyzeGeneticMarker, pendingLocalAnalysis, analysisErrorResult]

/-- Claim C4 (amended): when the health check succeeds and the model
response contains a brace-delimited substring that parses as JSON after
cleaning, `analyzeGeneticMarker` returns a record whose absent fields get
the fixed defaults, and whose `riskScore` is a rational in `[1, 5]`
whenever the parsed riskScore field is absent, falsy, or coerces to a
number; when it is a truthy non-numeric value (e.g. the string "high"),
`Math.min(5, Math.max(1, value || 3))` is NaN and the stored riskScore is
NaN. -/
theorem analyzeGeneticMarker_parsed_spec (m : GeneticAnalysisRequest) (a : ParsedAnalysis) :
    (a.riskScore ≠ some JsonRiskScore.truthyNaN →
      riskScoreInRange (analyzeGeneticMarker m (.healthyParsed a)).riskScore = true) ∧
    (a.riskScore = some JsonRiskScore.truthyNaN →
      (analyzeGeneticMarker m (.healthyParsed a)).riskScore = JsNum.nan) ∧
    (a.impact = none → (analyzeGeneticMarker m (.healthyParsed a)).impact = "Unknown") ∧
    (a.clinicalSignificance = none →
      (analyzeGeneticMarker m (.healthyParsed a)).clinicalSignificance = "VUS") ∧
    (a.healthCategory = none →
      (analyzeGeneticMarker m (.healthyParsed a)).healthCategory = "General Health") ∧
    (a.subcategory = none →
      (analyzeGeneticMarker m (.healthyParsed a)).subcategory = "Genetic Variant") ∧
    (a.explanation = none →
      (analyzeGeneticMarker m (.healthyParsed a)).explanation = "Analysis pending") ∧
    (a.recommendations = none →
      (analyzeGeneticMarker m (.healthyParsed a)).recommendations = []) := by
  refine ⟨?_, ?_, ?_, ?_, ?_, ?_, ?_, ?_⟩ <;>
    simp only [analyzeGeneticMarker] <;> intro h
  · have hq : ∀ q : ℚ,
        riskScoreInRange (jsMin 5 (jsMax 1 (JsNum.num q))) = true := by
      intro q
      simp only [jsMax, jsMin, riskScoreInRange, Bool.and_eq_true,
        decide_eq_true_eq]
      exact ⟨le_min (by norm_num) (le_max_left 1 q), min_le_left 5 _⟩
    cases hx : a.riskScore with
    | none => exact hq 3
    | some v =>
      cases v with
      | falsy => exact hq 3
      | truthyNum q => exact hq q
      | truthyNaN => exact absurd hx h
  · simp [h, riskScoreOrDefault, jsMax, jsMin]
  all_goals simp [h, jsOrStr]

/-- Witness for the amended C4 at a concrete marker and an all-absent
parsed object. -/
theorem analyzeGeneticMarker_parsed_spec_witness :
    riskScoreInRange (analyzeGeneticMarker ⟨"BRCA1", "rs1799966", "AG", none, none⟩
          (.healthyParsed {})).riskScore = true ∧
    (analyzeGeneticMarker ⟨"BRCA1", "rs1799966", "AG", none, none⟩
          (.healthyParsed {})).impact = "Unknown" ∧
    (analyzeGeneticMarker ⟨"BRCA1", "rs1799966", "AG", none, none⟩
          (.healthyParsed {})).clinicalSignificance = "VUS" ∧
    (analyzeGeneticMarker ⟨"BRCA1", "rs1799966", "AG", none, none⟩
          (.healthyParsed {})).healthCategory = "General Health" ∧
    (analyzeGeneticMarker ⟨"BRCA1", "rs1799966", "AG", none, none⟩
          (.healthyParsed {})).subcategory = "Genetic Variant" ∧
    (analyzeGeneticMarker ⟨"BRCA1", "rs1799966", "AG", none, none⟩
          (.healthyParsed {})).explanation = "Analysis pending" ∧
    (analyzeGeneticMarker ⟨"BRCA1", "rs1799966", "AG", none, none⟩
          (.healthyParsed {})).recommendations = [] := by
  have h := analyzeGeneticMarker_parsed_spec ⟨"BRCA1", "rs1799966", "AG", none, none⟩ {}
  exact ⟨h.1 (by simp), h.2.2.1 rfl, h.2.2.2.1 rfl, h.2.2.2.2.1 rfl,
    h.2.2.2.2.2.1 rfl, h.2.2.2.2.2.2.1 rfl, h.2.2.2.2.2.2.2 rfl⟩

/-- Counterexample to C4 as stated: a parsed JSON whose riskScore is a
truthy non-numeric value (such as the string "high") makes the source
compute `Math.min(5, Math.max(1, value || 3)) = NaN`, so the returned
riskScore is NaN and lies outside `[1, 5]`. -/
theorem analyzeGeneticMarker_nan_escapes_range :
    (analyzeGeneticMarker ⟨"APOE", "rs429358", "C/T", none, none⟩
        (.healthyParsed { riskScore := some JsonRiskScore.truthyNaN })).riskScore
      = JsNum.nan ∧
    riskScoreInRange (analyzeGeneticMarker ⟨"APOE", "rs429358", "C/T", none, none⟩
        (.healthyParsed { riskScore := some JsonRiskScore.truthyNaN })).riskScore
      = false := by
  exact ⟨rfl, rfl⟩

/-- Claim C9: `generateRiskAssessments` never throws (it is a total function
of the outcome; every throw is caught), and on every LLM or JSON-parse
failure it returns the empty array, a manually extracted list of at most 4
entries, or a single fixed General Health fallback with risk level 2.5. -/
theorem generateRiskAssessments_failure_fallbacks (ms : List GeneticAnalysisResult) :
    generateRiskAssessments ms .threw = [] ∧
    generateRiskAssessments ms .parsedNonArray = [] ∧
    generateRiskAssessments ms .noArrayMatch = [noMatchFallback] ∧
    noMatchFallback.category = "General Health" ∧
    noMatchFallback.riskLevel = 2.5 ∧
    parseFailFallback.category = "General Health" ∧
    parseFailFallback.riskLevel = 2.5 ∧
    (∀ cats risks,
      (generateRiskAssessments ms (.parseFail cats risks)).length ≤ 4) ∧
    (∀ cats risks, cats.length ≤ 1 →
      generateRiskAssessments ms (.parseFail cats risks) = [parseFailFallback]) := by
  refine ⟨rfl, rfl, rfl, rfl, rfl, rfl, rfl, ?_, ?_⟩
  · intro cats risks
    simp only [generateRiskAssessments]
    split
    · simp
    · simp
  · intro cats risks h
    simp only [generateRiskAssessments]
    split
    · omega
    · rfl

/-- Witness for C9 with a concrete single-category extraction failure. -/
theorem generateRiskAssessments_failure_fallbacks_witness :
    generateRiskAssessments [] (.parseFail ["Cardiovascular Health"] [3]) =
      [parseFailFallback] :=
  (generateRiskAssessments_failure_fallbacks []).2.2.2.2.2.2.2.2
    ["Cardiovascular Health"] [3] (by decide)

/-- In a table whose (gene, variant, genotype) keys are pairwise distinct,
the association-list lookup of a member returns exactly that member. -/
theorem find?_entry_of_pairwise (l : List RiskVariantEntry)
    (hpw : List.Pairwise (fun a b =>
      ¬(a.gene = b.gene ∧ a.variant = b.variant ∧ a.genotype = b.genotype)) l)
    (e : RiskVariantEntry) (he : e ∈ l) :
    List.find?
      (fun x => x.gene == e.gene && x.variant == e.variant && x.genotype == e.genotype)
      l = some e := by
  induction l with
  | nil => cases he
  | cons x xs ih =>
    rcases List.mem_cons.mp he with rfl | hmem
    · simp [List.find?_cons]
    · have hx : ¬(x.gene = e.gene ∧ x.variant = e.variant ∧ x.genotype = e.genotype) :=
        (List.pairwise_cons.mp hpw).1 e hmem
      have hpx : (x.gene == e.gene && x.variant == e.variant && x.genotype == e.genotype)
          = false := by
        rw [Bool.eq_false_iff]
        intro hcontra
        apply hx
        simpa [Bool.and_eq_true, beq_iff_eq, and_assoc] using hcontra
      rw [List.find?_cons, hpx]
      exact ih (List.pairwise_cons.mp hpw).2 hmem

/-- Claim C5 (amended): `analyzeGeneticRisk` maps every triple present in
its `riskVariants` table to exactly that entry (own keys shadow the
prototype chain), and every triple not in the table whose components are
not inherited `Object.prototype` property names to the fixed
unknown-variant default; a triple that reaches the guard through an
inherited property (e.g. genotype "toString") instead yields the record
of all-undefined fields. -/
theorem analyzeGeneticRisk_spec :
    (∀ (protoTruthy : List String → Bool), ∀ e ∈ riskVariants,
      analyzeGeneticRisk protoTruthy e.gene e.variant e.genotype = entryResult e) ∧
    (∀ (protoTruthy : List String → Bool) (gene variant genotype : String),
      (∀ e ∈ riskVariants,
        ¬(e.gene = gene ∧ e.variant = variant ∧ e.genotype = genotype)) →
      gene ∉ objectProtoProps → variant ∉ objectProtoProps →
      genotype ∉ objectProtoProps →
      analyzeGeneticRisk protoTruthy gene variant genotype = unknownVariantResult) := by
  constructor
  · intro protoTruthy e he
    have hfind := find?_entry_of_pairwise riskVariants (by decide) e he
    have hg : isOwnGene e.gene = true := by
      simp only [isOwnGene, List.any_eq_true]
      exact ⟨e, he, by simp⟩
    have hv : isOwnVariant e.gene e.variant = true := by
      simp only [isOwnVariant, List.any_eq_true]
      exact ⟨e, he, by simp⟩
    unfold analyzeGeneticRisk
    rw [if_pos hg, if_pos hv]
    unfold findVariantEntry
    rw [hfind]
  · intro protoTruthy gene variant genotype hnot hg hv ht
    have hfindnone : findVariantEntry gene variant genotype = none := by
      unfold findVariantEntry
      rw [List.find?_eq_none]
      intro e he
      have hne := hnot e he
      simp only [Bool.and_eq_true, beq_iff_eq, not_and] at hne ⊢
      tauto
    unfold analyzeGeneticRisk
    by_cases h1 : isOwnGene gene = true
    · rw [if_pos h1]
      by_cases h2 : isOwnVariant gene variant = true
      · rw [if_pos h2, hfindnone]
        exact if_neg ht
      · rw [if_neg h2, if_neg hv]
    · rw [if_neg h1, if_neg hg]

/-- Witness for the amended C5 at a triple outside the table that avoids
inherited property names. -/
theorem analyzeGeneticRisk_spec_witness :
    (∀ e ∈ riskVariants,
      ¬(e.gene = "FOO" ∧ e.variant = "rs0" ∧ e.genotype = "XX")) ∧
    "FOO" ∉ objectProtoProps ∧
    "rs0" ∉ objectProtoProps ∧
    "XX" ∉ objectProtoProps ∧
    analyzeGeneticRisk (fun _ => false) "FOO" "rs0" "XX" = unknownVariantResult :=
  ⟨by decide, by decide, by decide, by decide,
    analyzeGeneticRisk_spec.2 (fun _ => false) "FOO" "rs0" "XX"
      (by decide) (by decide) (by decide) (by decide)⟩

/-- Counterexample to C5 as stated: ("ACE", "rs4341", "toString") is not
in the table, yet `riskVariants["ACE"]["rs4341"]["toString"]` is the
inherited truthy `Object.prototype.toString` function, the guard passes,
and the source returns the all-undefined record rather than the fixed
default. -/
theorem analyzeGeneticRisk_proto_hit :
    riskVariants.all
      (fun e =>
        !(e.gene == "ACE" && e.variant == "rs4341" && e.genotype == "toString"))
      = true ∧
    analyzeGeneticRisk (fun _ => false) "ACE" "rs4341" "toString" = protoHitResult ∧
    analyzeGeneticRisk (fun _ => false) "ACE" "rs4341" "toString" ≠
      unknownVariantResult := by
  exact ⟨by decide, by decide, by decide⟩

/-- Claim C2 (refuted by the code): once a progress connection has been
registered by the `GET /api/progress/:analysisId` handler, the handler has
already called `writeHead`, so the stored connection has `headersSent =
true`; the `connection && !connection.headersSent` guard in
`sendProgressUpdate` is therefore permanently false and no
`marker_progress` or `marker_complete` payload is ever written to the
registered connection - every send leaves the connection map, and hence the
body written to the client, unchanged (only the initial `connected` message
ever reaches it). -/
theorem sendProgressUpdate_dead_after_setup (conns : ProgressConnections)
    (analysisId : String) (res : SSEConn) (data : ProgressData) :
    getConn (setupProgressSSEHandler conns analysisId res) analysisId =
      some { headersSent := true, written := res.written ++ [ProgressData.connected] } ∧
    sendProgressUpdate (setupProgressSSEHandler conns analysisId res) analysisId data =
      setupProgressSSEHandler conns analysisId res := by
  have hget : getConn (setupProgressSSEHandler conns analysisId res) analysisId =
      some { headersSent := true, written := res.written ++ [ProgressData.connected] } := by
    simp [setupProgressSSEHandler, setConn, getConn, List.find?_cons,
      SSEConn.writeHead, SSEConn.write]
  refine ⟨hget, ?_⟩
  unfold sendProgressUpdate
  rw [hget]
  simp

/-- Helper: one batch performs one LLM call per marker, in order. -/
theorem processBatch_llmCalls (llm : GeneticAnalysisRequest → Option GeneticAnalysisResult)
    (total : Nat) (b : List GeneticAnalysisRequest) :
    ∀ base, (processBatch llm total base b).llmCalls = b := by
  induction b with
  | nil => intro base; rfl
  | cons m rest ih =>
    intro base
    simp only [processBatch, UploadTrace.append]
    cases hl : llm m <;> simp [processMarker, hl, ih]

/-- Helper: one batch stores exactly one row per marker, in order: the
success row when the per-marker closure completed, the fallback row when it
threw. -/
theorem processBatch_stored (llm : GeneticAnalysisRequest → Option GeneticAnalysisResult)
    (total : Nat) (b : List GeneticAnalysisRequest) :
    ∀ base, (processBatch llm total base b).stored = b.map (storedRecord llm) := by
  induction b with
  | nil => intro base; rfl
  | cons m rest ih =>
    intro base
    simp only [processBatch, UploadTrace.append, List.map_cons]
    cases hl : llm m <;> simp [processMarker, storedRecord, hl, ih]

/-- Helper: fuel-indexed form of the LLM-call trace of the loop. -/
theorem batchLoop_llmCalls_aux (llm : GeneticAnalysisRequest → Option GeneticAnalysisResult)
    (total : Nat) (ms : List GeneticAnalysisRequest) :
    ∀ k i, ms.length - i ≤ k → (batchLoop llm total ms i).llmCalls = ms.drop i := by
  intro k
  induction k with
  | zero =>
    intro i h
    rw [batchLoop]
    rw [dif_neg (by omega)]
    rw [List.drop_eq_nil_of_le (by omega)]
    rfl
  | succ k ih =>
    intro i h
    rw [batchLoop]
    split
    · next hlt =>
      simp only [UploadTrace.append]
      rw [processBatch_llmCalls, ih (i + batchSize) (by simp only [batchSize]; omega)]
      rw [← List.drop_drop]
      exact List.take_append_drop _ _
    · next hge =>
      rw [List.drop_eq_nil_of_le (by omega)]
      rfl

/-- Helper: the loop calls the LLM once for each marker from index `i` on,
in input order. -/
theorem batchLoop_llmCalls (llm : GeneticAnalysisRequest → Option GeneticAnalysisResult)
    (total : Nat) (ms : List GeneticAnalysisRequest) (i : Nat) :
    (batchLoop llm total ms i).llmCalls = ms.drop i :=
  batchLoop_llmCalls_aux llm total ms (ms.length - i) i (le_refl _)

/-- Helper: fuel-indexed form of the stored rows of the loop. -/
theorem batchLoop_stored_aux (llm : GeneticAnalysisRequest → Option GeneticAnalysisResult)
    (total : Nat) (ms : List GeneticAnalysisRequest) :
    ∀ k i, ms.length - i ≤ k →
      (batchLoop llm total ms i).stored = (ms.drop i).map (storedRecord llm) := by
  intro k
  induction k with
  | zero =>
    intro i h
    rw [batchLoop]
    rw [dif_neg (by omega)]
    rw [List.drop_eq_nil_of_le (by omega)]
    rfl
  | succ k ih =>
    intro i h
    rw [batchLoop]
    split
    · next hlt =>
      simp only [UploadTrace.append]
      rw [processBatch_stored, ih (i + batchSize) (by simp only [batchSize]; omega)]
      rw [← List.drop_drop]
      rw [← List.map_append, List.take_append_drop]
    · next hge =>
      rw [List.drop_eq_nil_of_le (by omega)]
      rfl

/-- Helper: the loop stores one row per marker from index `i` on, in input
order. -/
theorem batchLoop_stored (llm : GeneticAnalysisRequest → Option GeneticAnalysisResult)
    (total : Nat) (ms : List GeneticAnalysisRequest) (i : Nat) :
    (batchLoop llm total ms i).stored = (ms.drop i).map (storedRecord llm) :=
  batchLoop_stored_aux llm total ms (ms.length - i) i (le_refl _)

/-- Helper: the upload route calls the LLM exactly on the first `maxMarkers`
parsed markers, in input order. -/
theorem processUpload_llmCalls (llm : GeneticAnalysisRequest → Option GeneticAnalysisResult)
    (ms : List GeneticAnalysisRequest) :
    (processUpload llm ms).llmCalls = ms.take maxMarkers := by
  unfold processUpload
  simp [UploadTrace.append, batchLoop_llmCalls]

/-- Helper: the upload route stores exactly one row per analyzed marker, in
input order. -/
theorem processUpload_stored (llm : GeneticAnalysisRequest → Option GeneticAnalysisResult)
    (ms : List GeneticAnalysisRequest) :
    (processUpload llm ms).stored = (ms.take maxMarkers).map (storedRecord llm) := by
  unfold processUpload
  simp [UploadTrace.append, batchLoop_stored]

/-- Claim C1 (amended): for every accepted upload, each of the first
`maxMarkers` (50) markers extracted from the file - all of them when the
file has at most 50 - is sent to the LLM backend, and exactly one result
row per analyzed marker is persisted, in input order, carrying that
gene, variant and genotype of that marker (markers beyond the first 50 are
neither analyzed nor persisted). -/
theorem upload_processes_first_maxMarkers
    (llm : GeneticAnalysisRequest → Option GeneticAnalysisResult)
    (ms : List GeneticAnalysisRequest)
    (hllm : ∀ m r, llm m = some r →
      r.gene = m.gene ∧ r.variant = m.variant ∧ r.genotype = m.genotype) :
    (processUpload llm ms).llmCalls = ms.take maxMarkers ∧
    (processUpload llm ms).stored = (ms.take maxMarkers).map (storedRecord llm) ∧
    ∀ m, (storedRecord llm m).gene = m.gene ∧
      (storedRecord llm m).variant = m.variant ∧
      (storedRecord llm m).genotype = m.genotype := by
  refine ⟨processUpload_llmCalls llm ms, processUpload_stored llm ms, ?_⟩
  intro m
  cases hl : llm m with
  | none => simp [storedRecord, hl, fallbackRecord]
  | some r =>
    have hid := hllm m r hl
    simp [storedRecord, hl, successRecord, hid.1, hid.2.1, hid.2.2]

/-- Witness for the amended C1 on a one-marker upload with a throwing
per-marker closure. -/
theorem upload_processes_first_maxMarkers_witness :
    (processUpload (fun _ => none) [⟨"APOE", "rs429358", "C/C", none, none⟩]).llmCalls
      = [⟨"APOE", "rs429358", "C/C", none, none⟩] ∧
    (processUpload (fun _ => none) [⟨"APOE", "rs429358", "C/C", none, none⟩]).stored
      = [fallbackRecord ⟨"APOE", "rs429358", "C/C", none, none⟩] := by
  have h := upload_processes_first_maxMarkers (fun _ => none)
    [⟨"APOE", "rs429358", "C/C", none, none⟩] (fun m r hr => by cases hr)
  exact ⟨by rw [h.1]; rfl, by rw [h.2.1]; rfl⟩

/-- Counterexample to C1 as stated: `csv51` is accepted by the upload route
and yields 51 extracted markers, but only 50 LLM calls happen and only 50
rows are persisted - the 51st extracted marker is dropped by the
`maxMarkers` slice. -/
theorem upload_misses_fifty_first_marker :
    (parseGeneticFile csv51).toOption.map List.length = some 51 ∧
    (parseGeneticFile csv51).toOption.map
      (fun ms => (processUpload (fun _ => none) ms).llmCalls.length) = some 50 ∧
    (parseGeneticFile csv51).toOption.map
      (fun ms => (processUpload (fun _ => none) ms).stored.length) = some 50 := by
  have hlen : (parseGeneticFile csv51).toOption.map List.length = some 51 := by
    set_option maxRecDepth 80000 in decide
  refine ⟨hlen, ?_, ?_⟩ <;>
  · cases hp : parseGeneticFile csv51 with
    | error e => rw [hp] at hlen; simp [Except.toOption] at hlen
    | ok ms =>
      rw [hp] at hlen
      have hms : ms.length = 51 := by simpa [Except.toOption] using hlen
      have hcalls : (processUpload (fun _ => none) ms).llmCalls.length = 50 := by
        rw [processUpload_llmCalls]
        simp [List.length_take, hms, maxMarkers]
      have hstored : (processUpload (fun _ => none) ms).stored.length = 50 := by
        rw [processUpload_stored, List.length_map]
        simp [List.length_take, hms, maxMarkers]
      simp [Except.toOption, hcalls, hstored]

/-- Claim C3: if analysis of an individual marker fails (the per-marker
closure throws), the pipeline stores the fallback row with impact
`Analysis Pending` for that marker and continues: the run still persists
exactly one row for every analyzed marker, so a single failure never aborts
the run. -/
theorem marker_failure_yields_fallback_row
    (llm : GeneticAnalysisRequest → Option GeneticAnalysisResult)
    (ms : List GeneticAnalysisRequest) (i : Nat) (dflt : StoredMarker)
    (hi : i < (ms.take maxMarkers).length)
    (hfail : llm ((ms.take maxMarkers).get ⟨i, hi⟩) = none) :
    (processUpload llm ms).stored.length = (ms.take maxMarkers).length ∧
    (processUpload llm ms).stored.getD i dflt =
      fallbackRecord ((ms.take maxMarkers).get ⟨i, hi⟩) ∧
    ((processUpload llm ms).stored.getD i dflt).impact = "Analysis Pending" := by
  have hst := processUpload_stored llm ms
  have hlen : (processUpload llm ms).stored.length = (ms.take maxMarkers).length := by
    rw [hst, List.length_map]
  have hrow : (processUpload llm ms).stored.getD i dflt =
      fallbackRecord ((ms.take maxMarkers).get ⟨i, hi⟩) := by
    rw [hst, List.getD_eq_getElem?_getD, List.getElem?_map,
      List.getElem?_eq_getElem hi]
    simp only [List.get_eq_getElem] at hfail
    simp only [Option.map_some', Option.getD_some, storedRecord]
    rw [hfail]
    rfl
  exact ⟨hlen, hrow, by rw [hrow]; rfl⟩

/-- Witness for C3 on a one-marker upload whose per-marker closure throws. -/
theorem marker_failure_yields_fallback_row_witness :
    (processUpload (fun _ => none)
        [⟨"TNF", "rs1800629", "GA", none, none⟩]).stored.length =
      (List.take maxMarkers
        ([⟨"TNF", "rs1800629", "GA", none, none⟩] : List GeneticAnalysisRequest)).length ∧
    ((processUpload (fun _ => none)
        [⟨"TNF", "rs1800629", "GA", none, none⟩]).stored.getD 0
      (fallbackRecord ⟨"TNF", "rs1800629", "GA", none, none⟩)).impact =
        "Analysis Pending" := by
  have h := marker_failure_yields_fallback_row (fun _ => none)
    ([⟨"TNF", "rs1800629", "GA", none, none⟩] : List GeneticAnalysisRequest) 0
    (fallbackRecord (⟨"TNF", "rs1800629", "GA", none, none⟩ : GeneticAnalysisRequest))
    (by decide) rfl
  exact ⟨h.1, h.2.2⟩

/-- Helper: unfolding equation of `chunks5` on the empty list. -/
theorem chunks5_nil : chunks5 ([] : List α) = [] := by
  rw [chunks5]

/-- Helper: unfolding equation of `chunks5` on a non-empty list. -/
theorem chunks5_cons (x : α) (rest : List α) :
    chunks5 (x :: rest) =
      ((x :: rest).take batchSize) :: chunks5 ((x :: rest).drop batchSize) := by
  rw [chunks5]

/-- Helper: fuel-indexed concatenation of the chunks. -/
theorem chunks5_join_aux : ∀ (k : Nat) (l : List α), l.length ≤ k →
    (chunks5 l).flatten = l := by
  intro k
  induction k with
  | zero =>
    intro l h
    have hl : l = [] := by
      cases l with
      | nil => rfl
      | cons x rest => simp at h
    subst hl
    rw [chunks5_nil]
    rfl
  | succ k ih =>
    intro l h
    cases l with
    | nil => rw [chunks5_nil]; rfl
    | cons x rest =>
      rw [chunks5_cons, List.flatten_cons]
      rw [ih ((x :: rest).drop batchSize) (by simp [batchSize] at h ⊢; omega)]
      exact List.take_append_drop _ _

/-- Helper: the chunks concatenate back to the original list. -/
theorem chunks5_join (l : List α) : (chunks5 l).flatten = l :=
  chunks5_join_aux l.length l (le_refl _)

/-- Helper: fuel-indexed chunk-size bound. -/
theorem chunks5_sizes_aux : ∀ (k : Nat) (l : List α), l.length ≤ k →
    ∀ b ∈ chunks5 l, b ≠ [] ∧ b.length ≤ batchSize := by
  intro k
  induction k with
  | zero =>
    intro l h b hb
    have hl : l = [] := by
      cases l with
      | nil => rfl
      | cons x rest => simp at h
    subst hl
    rw [chunks5_nil] at hb
    cases hb
  | succ k ih =>
    intro l h b hb
    cases l with
    | nil => rw [chunks5_nil] at hb; cases hb
    | cons x rest =>
      rw [chunks5_cons] at hb
      rcases List.mem_cons.mp hb with rfl | hmem
      · constructor
        · simp [batchSize]
        · simp [List.length_take, batchSize]
      · exact ih ((x :: rest).drop batchSize)
          (by simp [batchSize] at h ⊢; omega) b hmem

/-- Helper: every chunk is a non-empty run of at most `batchSize` markers. -/
theorem chunks5_sizes (l : List α) : ∀ b ∈ chunks5 l, b ≠ [] ∧ b.length ≤ batchSize :=
  chunks5_sizes_aux l.length l (le_refl _)

/-- Helper: fuel-indexed equivalence of the index-sliced loop with
sequential batch-by-batch processing of the chunk partition. -/
theorem batchLoop_eq_chunksRun_aux
    (llm : GeneticAnalysisRequest → Option GeneticAnalysisResult)
    (total : Nat) (ms : List GeneticAnalysisRequest) :
    ∀ (k i : Nat), ms.length - i ≤ k →
      batchLoop llm total ms i = chunksRun llm total i (chunks5 (ms.drop i)) := by
  intro k
  induction k with
  | zero =>
    intro i h
    rw [batchLoop, dif_neg (by omega), List.drop_eq_nil_of_le (by omega), chunks5_nil]
    rfl
  | succ k ih =>
    intro i h
    rw [batchLoop]
    split
    · next hlt =>
      cases hd : ms.drop i with
      | nil =>
        have hlen0 : ms.length - i = 0 := by
          have := congrArg List.length hd
          simpa using this
        omega
      | cons x rest =>
        rw [chunks5_cons, chunksRun]
        have hdrop : (x :: rest).drop batchSize = ms.drop (i + batchSize) := by
          rw [← hd, List.drop_drop]
        have htake : (x :: rest).take batchSize = (ms.drop i).take batchSize := by
          rw [hd]
        rw [hdrop, htake]
        by_cases h5 : i + batchSize ≤ ms.length
        · have hlen5 : ((ms.drop i).take batchSize).length = batchSize := by
            rw [List.length_take, List.length_drop]
            simp only [batchSize] at h5 ⊢
            omega
          rw [hlen5, ih (i + batchSize) (by simp only [batchSize]; omega)]
        · have hnil : ms.drop (i + batchSize) = [] :=
            List.drop_eq_nil_of_le (by omega)
          rw [hnil, chunks5_nil]
          rw [ih (i + batchSize) (by simp only [batchSize]; omega), hnil, chunks5_nil]
          rfl
    · next hge =>
      rw [List.drop_eq_nil_of_le (by omega), chunks5_nil]
      rfl

/-- Claim C7: the batch runner partitions the markers to analyze into
consecutive batches of at most `batchSize = 5` in input order (the chunks
concatenate back to the marker list and each is non-empty with at most 5
markers), and the index-sliced loop is exactly the sequential batch-by-batch
run in which each batch settles fully before the next starts - so only the
markers of one batch, at most 5, have calls in flight at any time. -/
theorem upload_batches_of_at_most_five
    (llm : GeneticAnalysisRequest → Option GeneticAnalysisResult)
    (ms : List GeneticAnalysisRequest) :
    (chunks5 (ms.take maxMarkers)).flatten = ms.take maxMarkers ∧
    (∀ b ∈ chunks5 (ms.take maxMarkers), b ≠ [] ∧ b.length ≤ batchSize) ∧
    batchLoop llm (ms.take maxMarkers).length (ms.take maxMarkers) 0 =
      chunksRun llm (ms.take maxMarkers).length 0 (chunks5 (ms.take maxMarkers)) := by
  refine ⟨chunks5_join _, chunks5_sizes _, ?_⟩
  have h := batchLoop_eq_chunksRun_aux llm (ms.take maxMarkers).length
    (ms.take maxMarkers) (ms.take maxMarkers).length 0 (by omega)
  simpa using h

/-- Witness for C7 on a one-marker upload: its single batch is the whole
list and respects the size bound. -/
theorem upload_batches_of_at_most_five_witness :
    (chunks5 (List.take maxMarkers
        ([⟨"ACE", "rs4341", "GG", none, none⟩] : List GeneticAnalysisRequest))).flatten =
      List.take maxMarkers
        ([⟨"ACE", "rs4341", "GG", none, none⟩] : List GeneticAnalysisRequest) ∧
    (([⟨"ACE", "rs4341", "GG", none, none⟩] : List GeneticAnalysisRequest) ≠ [] ∧
      ([⟨"ACE", "rs4341", "GG", none, none⟩] :
        List GeneticAnalysisRequest).length ≤ batchSize) := by
  have h := upload_batches_of_at_most_five (fun _ => none)
    ([⟨"ACE", "rs4341", "GG", none, none⟩] : List GeneticAnalysisRequest)
  refine ⟨h.1, h.2.1 _ ?_⟩
  have htake : List.take maxMarkers
      ([⟨"ACE", "rs4341", "GG", none, none⟩] : List GeneticAnalysisRequest) =
      [⟨"ACE", "rs4341", "GG", none, none⟩] := rfl
  rw [htake, chunks5_cons]
  simp [batchSize, chunks5_nil]

/-- Helper: the row loop of the parser is the order-preserving filterMap of
its row acceptance test. -/
theorem parseRows_eq_filterMap (headers : List String) (ls : List String) :
    parseRows headers ls = ls.filterMap (fun line =>
      let values := (jsSplit line ',').map jsTrim
      if headers.length ≤ values.length then rowMarker headers values
      else none) := by
  induction ls with
  | nil => rfl
  | cons line rest ih =>
    simp only [parseRows, List.filterMap_cons]
    by_cases hc : headers.length ≤ ((jsSplit line ',').map jsTrim).length
    · rw [if_pos hc, if_pos hc]
      cases hm : rowMarker headers ((jsSplit line ',').map jsTrim) <;>
        simp [ih]
    · rw [if_neg hc, if_neg hc]
      simpa using ih

/-- Claim C6: `parseGeneticFile` throws exactly when the file has fewer than
two non-blank lines or no data row yields non-empty gene, variant and
genotype fields; otherwise it returns, in input order, exactly the markers
of the data rows whose value count reaches the header count and whose gene,
variant and genotype fields are all non-empty. -/
theorem parseGeneticFile_spec (content : String) :
    ((∃ e, parseGeneticFile content = Except.error e) ↔
      (List.filter (fun l => jsTrim l != "") (jsSplit content '\n')).length < 2 ∨
        specValidMarkers content = []) ∧
    (2 ≤ (List.filter (fun l => jsTrim l != "") (jsSplit content '\n')).length →
      specValidMarkers content ≠ [] →
      parseGeneticFile content = Except.ok (specValidMarkers content)) := by
  have hsame :
      parseRows
        ((jsSplit ((List.filter (fun l => jsTrim l != "")
            (jsSplit content '\n')).headD "") ',').map jsTrim)
        ((List.filter (fun l => jsTrim l != "") (jsSplit content '\n')).drop 1) =
      specValidMarkers content := by
    rw [specValidMarkers, parseRows_eq_filterMap]
  simp only [parseGeneticFile]
  by_cases h1 :
      (List.filter (fun l => jsTrim l != "") (jsSplit content '\n')).length < 2
  · rw [if_pos h1]
    constructor
    · constructor
      · intro _
        exact Or.inl h1
      · intro _
        exact ⟨_, rfl⟩
    · intro h2
      omega
  · rw [if_neg h1]
    rw [hsame]
    by_cases h2 : (specValidMarkers content).length = 0
    · rw [if_pos h2]
      constructor
      · constructor
        · intro _
          exact Or.inr (List.length_eq_zero.mp h2)
        · intro _
          exact ⟨_, rfl⟩
      · intro _ hne
        exact absurd (List.length_eq_zero.mp h2) hne
    · rw [if_neg h2]
      constructor
      · constructor
        · intro ⟨e, he⟩
          cases he
        · intro h
          rcases h with h | h
          · omega
          · exact absurd (by rw [h]; rfl) h2
      · intro _ _
        rfl

/-- Witness for C6 on a concrete well-formed two-line CSV. -/
theorem parseGeneticFile_spec_witness :
    parseGeneticFile "gene,variant,genotype\nBRCA1,rs1799966,AG" =
      Except.ok (specValidMarkers "gene,variant,genotype\nBRCA1,rs1799966,AG") ∧
    specValidMarkers "gene,variant,genotype\nBRCA1,rs1799966,AG" =
      [⟨"BRCA1", "rs1799966", "AG", none, none⟩] := by
  refine ⟨(parseGeneticFile_spec _).2 (by decide) (by decide), by decide⟩
